import Mathlib

/-!
Verification development for the car-rating backend (`backend/server.py`).

The document store (`db.cars`) is modelled as a `List Car` in natural
(insertion) order; MongoDB `find_one` returns the first matching document
and `update_one` with `$set` rewrites the fields of the first matching
document, which the list model mirrors.  Python floats are modelled as
exact rationals; Python's `round(x, 1)` (round half to even at one
decimal) is `round1`.  Exceptions raised inside a route handler are
modelled with `Except`/an `Exn` value: FastAPI's `HTTPException` derives
from `Exception`, so a blanket `except Exception` clause catches it.
-/

/-- Exceptions that a route handler body can raise: an
`HTTPException(status_code, detail)` or any other exception. -/
inductive Exn where
  | http (status : Nat) (detail : String)
  | other (msg : String)
deriving DecidableEq

/-- Python's banker rounding of a rational to the nearest integer
(`round(q)`): round half to even. -/
def roundHalfEven (q : ℚ) : ℤ :=
  if q - ⌊q⌋ < 1/2 then ⌊q⌋
  else if 1/2 < q - ⌊q⌋ then ⌊q⌋ + 1
  else if ⌊q⌋ % 2 = 0 then ⌊q⌋ else ⌊q⌋ + 1

/-- Python's `round(q, 1)`: round to one decimal place, half to even. -/
def round1 (q : ℚ) : ℚ := ((roundHalfEven (10 * q) : ℤ) : ℚ) / 10

/-- The `Car` pydantic model (server.py lines 48-58).  `id` is the uuid
string assigned at creation; `created_at` is an abstract timestamp. -/
structure Car where
  id : String
  make : String
  model : String
  year : ℤ
  image_url : String
  hot_votes : ℕ := 0
  not_votes : ℕ := 0
  total_votes : ℕ := 0
  hot_percentage : ℚ := 0
  created_at : ℕ
deriving DecidableEq

/-- The `CarCreate` request model (make, model, year, image_url). -/
structure CarCreate where
  make : String
  model : String
  year : ℤ
  image_url : String
deriving DecidableEq

/-- The `CarResponse` model (server.py lines 66-75). -/
structure CarResponse where
  id : String
  make : String
  model : String
  year : ℤ
  image_url : String
  hot_votes : ℕ
  not_votes : ℕ
  total_votes : ℕ
  hot_percentage : ℚ
deriving DecidableEq

/-- The `VoteResponse` model (success, car, message). -/
structure VoteResponse where
  success : Bool
  car : CarResponse
  message : String
deriving DecidableEq

/-- Project a stored `Car` document to the `CarResponse` view, field by
field, as the handlers do. -/
def toCarResponse (c : Car) : CarResponse :=
  { id := c.id, make := c.make, model := c.model, year := c.year
    image_url := c.image_url, hot_votes := c.hot_votes
    not_votes := c.not_votes, total_votes := c.total_votes
    hot_percentage := c.hot_percentage }

/-- `db.cars.find_one({"id": cid})`: the first stored document whose `id`
field equals `cid`. -/
def find_one : List Car → String → Option Car
  | [], _ => none
  | c :: rest, cid => if c.id = cid then some c else find_one rest cid

/-- `db.cars.update_one({"id": cid}, {"$set": ...})`: rewrite the first
document whose `id` equals `cid` with `f`; all other documents are left
untouched. -/
def updateFirst : List Car → String → (Car → Car) → List Car
  | [], _, _ => []
  | c :: rest, cid, f =>
      if c.id = cid then f c :: rest else c :: updateFirst rest cid f

/-- The tally update of `vote_for_car` (server.py lines 174-182 together
with the `round(new_hot_percentage, 1)` applied at lines 192 and 207):
given the current counters and the vote type, produce
`(new_hot_votes, new_not_votes, new_total_votes, round(new_hot_percentage, 1))`. -/
def vote_aggregate (hv nv : ℕ) (vote_type : String) : ℕ × ℕ × ℕ × ℚ :=
  let newHot := if vote_type = "hot" then hv + 1 else hv
  let newNot := if vote_type = "hot" then nv else nv + 1
  let newTotal := newHot + newNot
  let newPct : ℚ := if 0 < newTotal then (newHot : ℚ) / (newTotal : ℚ) * 100 else 0
  (newHot, newNot, newTotal, round1 newPct)

/-- The `$set` document of the `update_one` call in `vote_for_car`
(server.py lines 185-195): overwrite exactly the four tally fields with
the aggregated values. -/
def set_vote_fields (agg : ℕ × ℕ × ℕ × ℚ) (c : Car) : Car :=
  { c with hot_votes := agg.1, not_votes := agg.2.1
           total_votes := agg.2.2.1, hot_percentage := agg.2.2.2 }

/-- The `try:` body of the `vote_for_car` handler (server.py lines
164-214).  Returns the store after the handler body ran together with the
raised exception or the response; the store component changes only at the
`update_one` call, so every error path returns the input store. -/
def vote_body (store : List Car) (car_id vote_type : String) :
    List Car × Except Exn VoteResponse :=
  if vote_type ∉ (["hot", "not"] : List String) then
    (store, Except.error (Exn.http 400 "Vote type must be \x27hot\x27 or \x27not\x27"))
  else
    match find_one store car_id with
    | none => (store, Except.error (Exn.http 404 "Car not found"))
    | some car =>
        let agg := vote_aggregate car.hot_votes car.not_votes vote_type
        let store2 := updateFirst store car_id (set_vote_fields agg)
        let updated : CarResponse :=
          { id := car.id, make := car.make, model := car.model
            year := car.year, image_url := car.image_url
            hot_votes := agg.1, not_votes := agg.2.1
            total_votes := agg.2.2.1, hot_percentage := agg.2.2.2 }
        (store2, Except.ok
          { success := true, car := updated
            message := "Vote recorded! This car is " ++ toString agg.2.2.2 ++ "% hot." })

/-- The full `vote_for_car` handler: the body wrapped in
`except HTTPException: raise` / `except Exception: raise HTTPException(500, ...)`
(server.py lines 216-220). -/
def vote_for_car (store : List Car) (car_id vote_type : String) :
    List Car × Except Exn VoteResponse :=
  let r := vote_body store car_id vote_type
  match r.2 with
  | Except.error (Exn.http s d) => (r.1, Except.error (Exn.http s d))
  | Except.error (Exn.other _) => (r.1, Except.error (Exn.http 500 "Failed to record vote"))
  | Except.ok v => (r.1, Except.ok v)

/-- Evaluation rule for `roundHalfEven` when the fractional part is below
one half. -/
lemma roundHalfEven_lt_half (q : ℚ) (n : ℤ) (h1 : (n : ℚ) ≤ q)
    (h2 : q - (n : ℚ) < 1/2) : roundHalfEven q = n := by
  have hf : ⌊q⌋ = n := by
    rw [Int.floor_eq_iff]
    refine ⟨h1, ?_⟩
    linarith
  simp only [roundHalfEven, hf]
  rw [if_pos h2]

/-- Evaluation rule for `roundHalfEven` when the fractional part is above
one half. -/
lemma roundHalfEven_gt_half (q : ℚ) (n : ℤ) (h1 : (n : ℚ) + 1/2 < q)
    (h2 : q < (n : ℚ) + 1) : roundHalfEven q = n + 1 := by
  have hf : ⌊q⌋ = n := by
    rw [Int.floor_eq_iff]
    constructor
    · linarith
    · linarith
  simp only [roundHalfEven, hf]
  rw [if_neg (by linarith), if_pos (by linarith)]

/-- Evaluation rule for `roundHalfEven` at a tie with an even floor. -/
lemma roundHalfEven_tie_even (n : ℤ) (hn : n % 2 = 0) :
    roundHalfEven ((n : ℚ) + 1/2) = n := by
  have hf : ⌊(n : ℚ) + 1/2⌋ = n := by
    rw [Int.floor_eq_iff]
    constructor
    · linarith
    · linarith
  simp only [roundHalfEven, hf]
  rw [if_neg (by linarith), if_neg (by linarith), if_pos hn]

/-- Evaluation rule for `round1` when `10 * q` has fractional part below
one half. -/
lemma round1_lt_half (q : ℚ) (n : ℤ) (h1 : (n : ℚ) ≤ 10 * q)
    (h2 : 10 * q - (n : ℚ) < 1/2) : round1 q = (n : ℚ) / 10 := by
  rw [round1, roundHalfEven_lt_half (10 * q) n h1 h2]

/-- Evaluation of the tally update for a `"hot"` vote. -/
lemma vote_aggregate_hot (hv nv : ℕ) :
    vote_aggregate hv nv "hot" =
      (hv + 1, nv, hv + 1 + nv,
        round1 (((hv + 1 : ℕ) : ℚ) / (((hv + 1 + nv) : ℕ) : ℚ) * 100)) := by
  have h : (0 : ℕ) < hv + 1 + nv := by omega
  simp [vote_aggregate, h]

/-- Evaluation of the tally update for a `"not"` vote. -/
lemma vote_aggregate_not (hv nv : ℕ) :
    vote_aggregate hv nv "not" =
      (hv, nv + 1, hv + (nv + 1),
        round1 ((hv : ℚ) / (((hv + (nv + 1)) : ℕ) : ℚ) * 100)) := by
  have h : (0 : ℕ) < hv + (nv + 1) := by omega
  have hne : ("not" : String) ≠ "hot" := by decide
  simp [vote_aggregate, hne, h]

example : round1 100 = 100 := by
  rw [round1_lt_half 100 1000 (by norm_num) (by norm_num)]
  norm_num

example : round1 (100 * (1 : ℚ) / 3) = 333/10 := by
  rw [round1_lt_half (100 * (1 : ℚ) / 3) 333 (by norm_num) (by norm_num)]
  norm_num

example : round1 (25/4 : ℚ) = 62/10 := by
  rw [round1, show (10 : ℚ) * (25/4) = ((62 : ℤ) : ℚ) + 1/2 by norm_num,
    roundHalfEven_tie_even 62 (by norm_num)]
  norm_num

example : vote_aggregate 0 0 "hot" = (1, 0, 1, 100) := by
  rw [vote_aggregate_hot]
  norm_num
  rw [round1_lt_half _ 1000 (by norm_num) (by norm_num)]
  norm_num

example : vote_aggregate 1 0 "not" = (1, 1, 2, 50) := by
  rw [vote_aggregate_not]
  norm_num
  rw [round1_lt_half _ 500 (by norm_num) (by norm_num)]
  norm_num

/-- Build a `Car` document from a `CarCreate` payload the way
`Car(**car_data)` does: fresh uuid `id`, the four supplied fields, and the
pydantic defaults `hot_votes=0, not_votes=0, total_votes=0,
hot_percentage=0.0, created_at=utcnow()`. -/
def carOfCreate (newId : String) (now : ℕ) (d : CarCreate) : Car :=
  { id := newId, make := d.make, model := d.model, year := d.year
    image_url := d.image_url, hot_votes := 0, not_votes := 0
    total_votes := 0, hot_percentage := 0, created_at := now }

/-- The `create_car` handler (server.py lines 222-246): build the `Car`
object, `insert_one` it, and return its `CarResponse` view.  `newId` and
`now` stand for the uuid and timestamp drawn at creation. -/
def create_car (newId : String) (now : ℕ) (store : List Car) (d : CarCreate) :
    List Car × CarResponse :=
  let car := carOfCreate newId now d
  (store ++ [car], toCarResponse car)

/-- The fixed `sample_cars` list of the `initialize_cars` handler
(server.py lines 258-331). -/
def sample_cars : List CarCreate :=
  [ { make := "Ferrari", model := "488 GTB", year := 2020,
      image_url := "https://images.unsplash.com/photo-1544636331-e26879cd4d9b?w=800&h=450&fit=crop&crop=center" },
    { make := "Lamborghini", model := "Huracan", year := 2021,
      image_url := "https://images.unsplash.com/photo-1563720223185-11003d516935?w=800&h=450&fit=crop&crop=center" },
    { make := "Porsche", model := "911 GT3", year := 2022,
      image_url := "https://images.unsplash.com/photo-1503376780353-7e6692767b70?w=800&h=450&fit=crop&crop=center" },
    { make := "McLaren", model := "720S", year := 2020,
      image_url := "https://images.unsplash.com/photo-1558618666-fcd25c85cd64?w=800&h=450&fit=crop&crop=center" },
    { make := "Bugatti", model := "Chiron", year := 2021,
      image_url := "https://images.unsplash.com/photo-1525609004556-c46c7d6cf023?w=800&h=450&fit=crop&crop=center" },
    { make := "Aston Martin", model := "DBS Superleggera", year := 2020,
      image_url := "https://images.unsplash.com/photo-1570618834314-ec2ec95d4d7c?w=800&h=450&fit=crop&crop=center" },
    { make := "BMW", model := "M4", year := 2021,
      image_url := "https://images.unsplash.com/photo-1555215695-3004980ad54e?w=800&h=450&fit=crop&crop=center" },
    { make := "Mercedes", model := "AMG GT", year := 2020,
      image_url := "https://images.unsplash.com/photo-1563707346-8d5c8dd7e63a?w=800&h=450&fit=crop&crop=center" },
    { make := "Audi", model := "R8", year := 2021,
      image_url := "https://images.unsplash.com/photo-1544636331-e26879cd4d9b?w=800&h=450&fit=crop&crop=center" },
    { make := "Tesla", model := "Model S Plaid", year := 2022,
      image_url := "https://images.unsplash.com/photo-1560958089-b8a1929cea89?w=800&h=450&fit=crop&crop=center" },
    { make := "Chevrolet", model := "Corvette C8", year := 2021,
      image_url := "https://images.unsplash.com/photo-1552519507-da3b142c6e3d?w=800&h=450&fit=crop&crop=center" },
    { make := "Ford", model := "Mustang Shelby GT500", year := 2020,
      image_url := "https://images.unsplash.com/photo-1494976688153-d4c7c48bbcdb?w=800&h=450&fit=crop&crop=center" } ]

/-- Result shape of the `initialize_cars` handler: `{message,
initialized, car_count?}`. -/
structure InitResult where
  message : String
  initialized : Bool
  car_count : Option ℕ := none
deriving DecidableEq

/-- The `initialize_cars` handler (server.py lines 248-350): if
`count_documents({}) > 0`, report already-initialized and insert nothing;
otherwise build a `Car` per sample entry (each with a fresh uuid, supplied
by `ids`, and pydantic-default tallies) and `insert_many` them. -/
def initialize_cars (ids : ℕ → String) (now : ℕ) (store : List Car) :
    List Car × InitResult :=
  if 0 < store.length then
    (store, { message := "Database already has " ++ toString store.length ++ " cars"
              initialized := false })
  else
    let cars := sample_cars.enum.map (fun p => carOfCreate (ids p.1) now p.2)
    (store ++ cars,
      { message := "Successfully initialized " ++ toString cars.length ++ " cars"
        initialized := true, car_count := some cars.length })

/-- The `try:` body of the `get_random_car` handler (server.py lines
136-155).  `$sample` draws one document at random; the draw is modelled by
an arbitrary index `k` taken modulo the store size.  `storeRaises`
injects a store-access failure (the aggregate call raising).  Note the
body raises `HTTPException(404)` when the store is empty. -/
def get_random_car_body (storeRaises : Bool) (store : List Car) (k : ℕ) :
    Except Exn CarResponse :=
  if storeRaises then Except.error (Exn.other "store failure")
  else
    match store with
    | [] => Except.error (Exn.http 404 "No cars found in database")
    | c :: rest =>
        Except.ok (toCarResponse ((c :: rest).getD (k % (c :: rest).length) c))

/-- The full `get_random_car` handler (server.py lines 133-159): the body
wrapped in `except Exception as e: raise HTTPException(500, ...)`.
`HTTPException` derives from `Exception`, and this handler has no
`except HTTPException: raise` clause, so even the body's own
`HTTPException(404)` is caught here and replaced by a 500. -/
def get_random_car (storeRaises : Bool) (store : List Car) (k : ℕ) :
    Except Exn CarResponse :=
  match get_random_car_body storeRaises store k with
  | Except.error _ => Except.error (Exn.http 500 "Failed to get random car")
  | Except.ok r => Except.ok r

/-- The two record invariants of the `Car` data model: `total_votes` is
the sum of the two counters, and `hot_percentage` is the rounded hot
ratio, `0.0` when no votes exist. -/
def CarInv (c : Car) : Prop :=
  c.total_votes = c.hot_votes + c.not_votes ∧
  c.hot_percentage =
    if 0 < c.total_votes
    then round1 (100 * (c.hot_votes : ℚ) / (c.total_votes : ℚ))
    else 0

instance (c : Car) : Decidable (CarInv c) :=
  decidable_of_iff
    (c.total_votes = c.hot_votes + c.not_votes ∧
      c.hot_percentage =
        if 0 < c.total_votes
        then round1 (100 * (c.hot_votes : ℚ) / (c.total_votes : ℚ))
        else 0)
    Iff.rfl

/-- The `{success, content, metadata, error}` result an agent's
`execute` returns.  `metadata` is a string-keyed dict; only
numeric-valued entries (such as `tools_used`) are observed by the
handlers, so it is modelled as an association list into `ℕ`. -/
structure AgentResult where
  success : Bool
  content : String
  metadata : List (String × ℕ) := []
  error : Option String := none
deriving DecidableEq

/-- `metadata.get(key, default)`. -/
def dictGet (m : List (String × ℕ)) (key : String) (default : ℕ) : ℕ :=
  match m.find? (fun p => p.1 == key) with
  | some p => p.2
  | none => default

/-- The process-wide globals `search_agent` / `chat_agent` (server.py
lines 27-28), each `None` until lazily constructed.  `Agent` is the
opaque agent instance type of the external `ai_agents` module. -/
structure AgentsState (Agent : Type) where
  search_agent : Option Agent := none
  chat_agent : Option Agent := none
deriving DecidableEq

/-- The `ChatRequest` model: message, agent_type (default "chat"),
optional context (unused by the handler). -/
structure ChatRequest where
  message : String
  agent_type : String := "chat"
  context : Option String := none
deriving DecidableEq

/-- The `ChatResponse` model (server.py lines 93-99). -/
structure ChatResponse where
  success : Bool
  response : String
  agent_type : String
  capabilities : List String
  metadata : List (String × ℕ) := []
  error : Option String := none
deriving DecidableEq

/-- The `SearchRequest` model: query and max_results (default 5,
unused by the handler). -/
structure SearchRequest where
  query : String
  max_results : ℕ := 5
deriving DecidableEq

/-- The `SearchResponse` model (server.py lines 107-113). -/
structure SearchResponse where
  success : Bool
  query : String
  summary : String
  search_results : Option (List (String × ℕ)) := none
  sources_count : ℕ
  error : Option String := none
deriving DecidableEq

/-- The `try:` body of the `chat_with_agent` handler (server.py lines
359-383), with the external world passed in: `conSearch` / `conChat` are
the outcomes of `SearchAgent(agent_config)` / `ChatAgent(agent_config)`
(an `Except.error` is the constructor raising), `exec` is
`agent.execute(message)` (`Except.error` is `execute` raising), `caps` is
`agent.get_capabilities()`.  Returns the globals as left after the body
ran, and the raised exception or the response.  The internal
`HTTPException(500, "Failed to initialize agent")` is an ordinary
exception whose `str()` is `"500: Failed to initialize agent"`.
`chat_rest` is the part of the body after the lazy-init block: select the
agent for the requested type from the (possibly updated) globals, fail if
it is still None, else execute and shape the response. -/
def chat_rest {Agent : Type} (exec : Agent → String → Except String AgentResult)
    (caps : Agent → List String)
    (st1 : AgentsState Agent) (req : ChatRequest) : Except String ChatResponse :=
  match (if req.agent_type = "search" then st1.search_agent else st1.chat_agent) with
  | none => Except.error "500: Failed to initialize agent"
  | some a =>
      match exec a req.message with
      | Except.error m => Except.error m
      | Except.ok r =>
          Except.ok
            { success := r.success, response := r.content
              agent_type := req.agent_type, capabilities := caps a
              metadata := r.metadata, error := r.error }

def chat_body {Agent : Type} (conSearch conChat : Except String Agent)
    (exec : Agent → String → Except String AgentResult)
    (caps : Agent → List String)
    (st : AgentsState Agent) (req : ChatRequest) :
    AgentsState Agent × Except String ChatResponse :=
  if req.agent_type = "search" ∧ st.search_agent.isNone = true then
    match conSearch with
    | Except.error m => (st, Except.error m)
    | Except.ok a =>
        ({ st with search_agent := some a },
          chat_rest exec caps { st with search_agent := some a } req)
  else if req.agent_type = "chat" ∧ st.chat_agent.isNone = true then
    match conChat with
    | Except.error m => (st, Except.error m)
    | Except.ok a =>
        ({ st with chat_agent := some a },
          chat_rest exec caps { st with chat_agent := some a } req)
  else (st, chat_rest exec caps st req)

/-- The full `chat_with_agent` handler (server.py lines 354-393): the
body wrapped in `except Exception as e: return ChatResponse(success=False,
response="", agent_type=request.agent_type, capabilities=[],
error=str(e))`.  Every exception is caught, so the handler always
returns an HTTP-200 `ChatResponse`, never an HTTP fault. -/
def chat_with_agent {Agent : Type} (conSearch conChat : Except String Agent)
    (exec : Agent → String → Except String AgentResult)
    (caps : Agent → List String)
    (st : AgentsState Agent) (req : ChatRequest) :
    AgentsState Agent × ChatResponse :=
  match chat_body conSearch conChat exec caps st req with
  | (st1, Except.ok resp) => (st1, resp)
  | (st1, Except.error m) =>
      (st1, { success := false, response := "", agent_type := req.agent_type
              capabilities := [], error := some m })

/-- The fixed search instruction built by `search_and_summarize`
(server.py line 407). -/
def search_prompt (query : String) : String :=
  "Search for information about: " ++ query ++
    ". Provide a comprehensive summary with key findings."

/-- The `try:` body of the `search_and_summarize` handler (server.py
lines 401-425).  The handler only touches the global `search_agent`;
`exec` is `search_agent.execute(prompt, use_tools=True)` (the `Bool`
argument is `use_tools`).  `search_rest` is the part of the body after
the lazy-init line, run with the then-certainly-set search agent. -/
def search_rest {Agent : Type}
    (exec : Agent → String → Bool → Except String AgentResult)
    (a : Agent) (req : SearchRequest) : Except String SearchResponse :=
  match exec a (search_prompt req.query) true with
  | Except.error m => Except.error m
  | Except.ok r =>
      if r.success then
        Except.ok
          { success := true, query := req.query, summary := r.content
            search_results := some r.metadata
            sources_count := dictGet r.metadata "tools_used" 0 }
      else
        Except.ok
          { success := false, query := req.query, summary := ""
            sources_count := 0, error := r.error }

def search_body {Agent : Type} (conSearch : Except String Agent)
    (exec : Agent → String → Bool → Except String AgentResult)
    (st : Option Agent) (req : SearchRequest) :
    Option Agent × Except String SearchResponse :=
  match st with
  | some a => (some a, search_rest exec a req)
  | none =>
      match conSearch with
      | Except.error m => (none, Except.error m)
      | Except.ok a => (some a, search_rest exec a req)

/-- The full `search_and_summarize` handler (server.py lines 396-435):
the body wrapped in `except Exception as e: return SearchResponse(
success=False, query=request.query, summary="", sources_count=0,
error=str(e))`. -/
def search_and_summarize {Agent : Type} (conSearch : Except String Agent)
    (exec : Agent → String → Bool → Except String AgentResult)
    (st : Option Agent) (req : SearchRequest) :
    Option Agent × SearchResponse :=
  match search_body conSearch exec st req with
  | (st1, Except.ok resp) => (st1, resp)
  | (st1, Except.error m) =>
      (st1, { success := false, query := req.query, summary := ""
              sources_count := 0, error := some m })

/-- `round(0, 1) = 0`. -/
lemma round1_zero : round1 0 = 0 := by
  rw [round1_lt_half 0 0 (by norm_num) (by norm_num)]
  norm_num

/-- The first vote scenario: a `"hot"` vote on fresh tallies. -/
lemma vote_aggregate_fresh_hot : vote_aggregate 0 0 "hot" = (1, 0, 1, 100) := by
  rw [vote_aggregate_hot]
  norm_num
  rw [round1_lt_half _ 1000 (by norm_num) (by norm_num)]
  norm_num

/-- The second vote scenario: a `"not"` vote on tallies `(1, 0)`. -/
lemma vote_aggregate_then_not : vote_aggregate 1 0 "not" = (1, 1, 2, 50) := by
  rw [vote_aggregate_not]
  norm_num
  rw [round1_lt_half _ 500 (by norm_num) (by norm_num)]
  norm_num

/-- The aggregated total is always the sum of the two aggregated
counters. -/
lemma vote_aggregate_sum (hv nv : ℕ) (vote_type : String) :
    (vote_aggregate hv nv vote_type).2.2.1 =
      (vote_aggregate hv nv vote_type).1 + (vote_aggregate hv nv vote_type).2.1 := rfl

/-- For a valid vote type the aggregated percentage is the rounded hot
ratio of the aggregated tallies, `0` if they were zero. -/
lemma vote_aggregate_pct (hv nv : ℕ) (vote_type : String)
    (hvt : vote_type = "hot" ∨ vote_type = "not") :
    (vote_aggregate hv nv vote_type).2.2.2 =
      (if 0 < (vote_aggregate hv nv vote_type).2.2.1
       then round1 (100 * ((vote_aggregate hv nv vote_type).1 : ℚ) /
         ((vote_aggregate hv nv vote_type).2.2.1 : ℚ))
       else 0) := by
  rcases hvt with h | h <;> subst h
  · rw [vote_aggregate_hot]
    have ht : 0 < hv + 1 + nv := by omega
    rw [if_pos ht]
    push_cast
    ring_nf
  · rw [vote_aggregate_not]
    have ht : 0 < hv + (nv + 1) := by omega
    rw [if_pos ht]
    push_cast
    ring_nf

/-- Claim C1: for every car record and vote_type in {"hot","not"}, the
vote operation increments exactly one of hot_votes/not_votes by 1 leaving
the other unchanged, sets new_total_votes to the sum of the new counters,
and sets new_hot_percentage to round(100 * new_hot_votes /
new_total_votes, 1) when new_total_votes > 0 and to 0.0 otherwise; a
"hot" vote on a fresh car yields (1, 0, 1, 100.0) and a subsequent "not"
vote yields (1, 1, 2, 50.0). -/
theorem vote_aggregate_spec (hv nv : ℕ) (vote_type : String)
    (hvt : vote_type = "hot" ∨ vote_type = "not") :
    (vote_type = "hot" →
      vote_aggregate hv nv vote_type =
        (hv + 1, nv, hv + 1 + nv,
          round1 (100 * ((hv + 1 : ℕ) : ℚ) / (((hv + 1 + nv) : ℕ) : ℚ)))) ∧
    (vote_type = "not" →
      vote_aggregate hv nv vote_type =
        (hv, nv + 1, hv + (nv + 1),
          round1 (100 * ((hv : ℕ) : ℚ) / (((hv + (nv + 1)) : ℕ) : ℚ)))) ∧
    (vote_aggregate hv nv vote_type).2.2.1 =
      (vote_aggregate hv nv vote_type).1 + (vote_aggregate hv nv vote_type).2.1 ∧
    (vote_aggregate hv nv vote_type).2.2.2 =
      (if 0 < (vote_aggregate hv nv vote_type).2.2.1
       then round1 (100 * ((vote_aggregate hv nv vote_type).1 : ℚ) /
         ((vote_aggregate hv nv vote_type).2.2.1 : ℚ))
       else 0) ∧
    vote_aggregate 0 0 "hot" = (1, 0, 1, 100) ∧
    vote_aggregate 1 0 "not" = (1, 1, 2, 50) := by
  refine ⟨?_, ?_, vote_aggregate_sum hv nv vote_type,
    vote_aggregate_pct hv nv vote_type hvt,
    vote_aggregate_fresh_hot, vote_aggregate_then_not⟩
  · intro h
    subst h
    rw [vote_aggregate_hot]
    push_cast
    ring_nf
  · intro h
    subst h
    rw [vote_aggregate_not]
    push_cast
    ring_nf

/-- Witness for C1 at `hv = 0`, `nv = 0`, `vote_type = "hot"`. -/
theorem vote_aggregate_spec_witness :
    vote_aggregate 0 0 "hot" = (1, 0, 1, 100) :=
  (vote_aggregate_spec 0 0 "hot" (Or.inl rfl)).2.2.2.2.1

/-- Claim C3: a vote request whose vote_type is outside {"hot","not"} is
rejected with HTTP 400 before any store access: for every store the
handler returns the same 400 error and the store unchanged, so no record
is read or written. -/
theorem vote_invalid_type_rejected (store : List Car) (car_id vote_type : String)
    (h1 : vote_type ≠ "hot") (h2 : vote_type ≠ "not") :
    vote_for_car store car_id vote_type =
      (store, Except.error (Exn.http 400 "Vote type must be \x27hot\x27 or \x27not\x27")) := by
  have hmem : vote_type ∉ (["hot", "not"] : List String) := by
    simp [h1, h2]
  simp [vote_for_car, vote_body, hmem]

/-- Witness for C3 at `vote_type = "bogus"` on the empty store. -/
theorem vote_invalid_type_rejected_witness :
    vote_for_car [] "car-1" "bogus" =
      ([], Except.error (Exn.http 400 "Vote type must be \x27hot\x27 or \x27not\x27")) :=
  vote_invalid_type_rejected [] "car-1" "bogus" (by decide) (by decide)

/-- Claim C4: a vote with a valid vote_type on a car_id that matches no
stored Car fails with HTTP 404 and leaves the store unchanged. -/
theorem vote_missing_car_not_found (store : List Car) (car_id vote_type : String)
    (hvt : vote_type = "hot" ∨ vote_type = "not")
    (hmiss : find_one store car_id = none) :
    vote_for_car store car_id vote_type =
      (store, Except.error (Exn.http 404 "Car not found")) := by
  have hmem : vote_type ∈ (["hot", "not"] : List String) := by
    rcases hvt with h | h <;> simp [h]
  simp [vote_for_car, vote_body, hmem, hmiss]

/-- Witness for C4: a `"hot"` vote on an absent id in the empty store. -/
theorem vote_missing_car_not_found_witness :
    vote_for_car [] "car-1" "hot" =
      ([], Except.error (Exn.http 404 "Car not found")) :=
  vote_missing_car_not_found [] "car-1" "hot" (Or.inl rfl) rfl

/-- Claim C5 (code bug): on an empty store the `get_random_car` body
raises `HTTPException(404, "No cars found in database")` as intended, but
the handler's blanket `except Exception` catches that very exception and
replaces it with `HTTPException(500, "Failed to get random car")`; the
endpoint therefore answers 500, not the specified 404. -/
theorem random_car_empty_store_returns_500 :
    get_random_car false [] 0 =
      Except.error (Exn.http 500 "Failed to get random car") ∧
    get_random_car_body false [] 0 =
      Except.error (Exn.http 404 "No cars found in database") := by
  constructor <;> rfl

/-- The store left by `initialize_cars` is never empty: either the
existing cars are kept, or the twelve samples are inserted. -/
lemma initialize_cars_fst_length_pos (ids : ℕ → String) (now : ℕ)
    (store : List Car) : 0 < (initialize_cars ids now store).1.length := by
  rcases store with _ | ⟨c, rest⟩
  · simp [initialize_cars, sample_cars]
  · simp [initialize_cars]

/-- Claim C6: seeding is idempotent.  A call on a non-empty store inserts
nothing and reports initialized=false; a call on an empty store reports
initialized=true with the count of the twelve inserted samples; and a
second call, whatever the starting store, is always a no-op reporting
initialized=false, so the samples are inserted at most once. -/
theorem initialize_cars_idempotent (ids ids2 : ℕ → String) (now now2 : ℕ)
    (store : List Car) :
    (store ≠ [] →
      initialize_cars ids now store =
        (store,
          { message := "Database already has " ++ toString store.length ++ " cars"
            initialized := false })) ∧
    (store = [] →
      (initialize_cars ids now store).2.initialized = true ∧
      (initialize_cars ids now store).2.car_count = some 12 ∧
      (initialize_cars ids now store).1.length = 12) ∧
    initialize_cars ids2 now2 (initialize_cars ids now store).1 =
      ((initialize_cars ids now store).1,
        { message := "Database already has " ++
            toString (initialize_cars ids now store).1.length ++ " cars"
          initialized := false }) := by
  refine ⟨?_, ?_, ?_⟩
  · intro hne
    have hl : 0 < store.length := List.length_pos.mpr hne
    simp [initialize_cars, hl]
  · intro he
    subst he
    exact ⟨rfl, rfl, rfl⟩
  · have hl : 0 < (initialize_cars ids now store).1.length :=
      initialize_cars_fst_length_pos ids now store
    rw [initialize_cars, if_pos hl]

/-- Witness for C6: seeding the empty store then seeding again. -/
theorem initialize_cars_idempotent_witness :
    (initialize_cars (fun _ => "s") 0 []).2.initialized = true ∧
    (initialize_cars (fun _ => "s") 0 []).2.car_count = some 12 ∧
    initialize_cars (fun _ => "t") 1 (initialize_cars (fun _ => "s") 0 []).1 =
      ((initialize_cars (fun _ => "s") 0 []).1,
        { message := "Database already has " ++
            toString (initialize_cars (fun _ => "s") 0 []).1.length ++ " cars"
          initialized := false }) :=
  ⟨((initialize_cars_idempotent (fun _ => "s") (fun _ => "t") 0 1 []).2.1 rfl).1,
   ((initialize_cars_idempotent (fun _ => "s") (fun _ => "t") 0 1 []).2.1 rfl).2.1,
   (initialize_cars_idempotent (fun _ => "s") (fun _ => "t") 0 1 []).2.2⟩

/-- A freshly built car document satisfies both record invariants: its
tallies are zero-initialized. -/
lemma carOfCreate_inv (newId : String) (now : ℕ) (d : CarCreate) :
    CarInv (carOfCreate newId now d) := by
  constructor <;> simp [CarInv, carOfCreate]

/-- Every element of `updateFirst store cid f` is either an original
element or `f` of an original element. -/
lemma mem_updateFirst {store : List Car} {cid : String} {f : Car → Car}
    {c : Car} (hc : c ∈ updateFirst store cid f) :
    c ∈ store ∨ ∃ d, d ∈ store ∧ c = f d := by
  induction store with
  | nil => simp [updateFirst] at hc
  | cons a rest ih =>
    by_cases ha : a.id = cid
    · rw [updateFirst, if_pos ha] at hc
      rcases List.mem_cons.mp hc with h | h
      · exact Or.inr ⟨a, List.mem_cons_self a rest, h⟩
      · exact Or.inl (List.mem_cons_of_mem a h)
    · rw [updateFirst, if_neg ha] at hc
      rcases List.mem_cons.mp hc with h | h
      · exact Or.inl (h ▸ List.mem_cons_self a rest)
      · rcases ih h with h2 | ⟨d, hd, he⟩
        · exact Or.inl (List.mem_cons_of_mem a h2)
        · exact Or.inr ⟨d, List.mem_cons_of_mem a hd, he⟩

/-- Applying the `$set` document of a valid vote to any car document
yields a document satisfying both record invariants. -/
lemma set_vote_fields_inv (hv nv : ℕ) (vote_type : String)
    (hvt : vote_type = "hot" ∨ vote_type = "not") (d : Car) :
    CarInv (set_vote_fields (vote_aggregate hv nv vote_type) d) :=
  ⟨vote_aggregate_sum hv nv vote_type, vote_aggregate_pct hv nv vote_type hvt⟩

/-- Claim C2: create_car, initialize_cars seeding and vote_for_car all
preserve the record invariants `total_votes = hot_votes + not_votes` and
`hot_percentage = round(100 * hot_votes / total_votes, 1)` (0.0 when
total_votes = 0), and creation zero-initializes the tallies to
(0, 0, 0, 0.0). -/
theorem car_invariants_preserved (newId : String) (now : ℕ) (d : CarCreate)
    (store : List Car) (ids : ℕ → String) (car_id vote_type : String)
    (hinv : ∀ c ∈ store, CarInv c) :
    (∀ c ∈ (create_car newId now store d).1, CarInv c) ∧
    ((create_car newId now store d).2.hot_votes = 0 ∧
      (create_car newId now store d).2.not_votes = 0 ∧
      (create_car newId now store d).2.total_votes = 0 ∧
      (create_car newId now store d).2.hot_percentage = 0) ∧
    (∀ c ∈ (initialize_cars ids now store).1, CarInv c) ∧
    (∀ c ∈ (vote_for_car store car_id vote_type).1, CarInv c) := by
  refine ⟨?_, ⟨rfl, rfl, rfl, rfl⟩, ?_, ?_⟩
  · intro c hc
    rcases List.mem_append.mp hc with h | h
    · exact hinv c h
    · rcases List.mem_singleton.mp h with rfl
      exact carOfCreate_inv newId now d
  · intro c hc
    rw [initialize_cars] at hc
    by_cases hl : 0 < store.length
    · rw [if_pos hl] at hc
      exact hinv c hc
    · rw [if_neg hl] at hc
      rcases List.mem_append.mp hc with h | h
      · exact hinv c h
      · rcases List.mem_map.mp h with ⟨p, _, rfl⟩
        exact carOfCreate_inv (ids p.1) now p.2
  · intro c hc
    by_cases hmem : vote_type ∈ (["hot", "not"] : List String)
    · cases hfind : find_one store car_id with
      | none =>
          rw [vote_for_car] at hc
          simp only [vote_body, hmem, not_true_eq_false, if_neg, hfind,
            not_false_eq_true, if_pos] at hc
          exact hinv c hc
      | some car =>
          have hvt : vote_type = "hot" ∨ vote_type = "not" := by
            simpa using hmem
          rw [vote_for_car] at hc
          simp only [vote_body, hmem, not_true_eq_false, if_neg, hfind,
            not_false_eq_true, if_pos] at hc
          rcases mem_updateFirst hc with h | ⟨e, _, rfl⟩
          · exact hinv c h
          · exact set_vote_fields_inv car.hot_votes car.not_votes vote_type hvt e
    · have hfst : (vote_for_car store car_id vote_type).1 = store := by
        simp [vote_for_car, vote_body, hmem]
      rw [hfst] at hc
      exact hinv c hc

/-- Witness for C2: creating a Ferrari 488 GTB in the empty store yields
the zero-initialized tallies (0, 0, 0, 0.0). -/
theorem car_invariants_preserved_witness :
    (create_car "id-1" 0 []
      { make := "Ferrari", model := "488 GTB", year := 2020
        image_url := "u" }).2.hot_votes = 0 ∧
    (create_car "id-1" 0 []
      { make := "Ferrari", model := "488 GTB", year := 2020
        image_url := "u" }).2.not_votes = 0 ∧
    (create_car "id-1" 0 []
      { make := "Ferrari", model := "488 GTB", year := 2020
        image_url := "u" }).2.total_votes = 0 ∧
    (create_car "id-1" 0 []
      { make := "Ferrari", model := "488 GTB", year := 2020
        image_url := "u" }).2.hot_percentage = 0 :=
  (car_invariants_preserved "id-1" 0
    { make := "Ferrari", model := "488 GTB", year := 2020, image_url := "u" }
    [] (fun _ => "s") "c" "hot" (by simp)).2.1

/-- `updateFirst` rewrites exactly the first matching document: there is
an index holding the found car whose entry becomes `f` of it, every other
index is untouched, and the length is unchanged. -/
lemma updateFirst_frame (store : List Car) (cid : String) (f : Car → Car)
    (car : Car) (hfind : find_one store cid = some car) :
    ∃ i : ℕ, store[i]? = some car ∧
      (updateFirst store cid f).length = store.length ∧
      (∀ j : ℕ, j ≠ i → (updateFirst store cid f)[j]? = store[j]?) ∧
      (updateFirst store cid f)[i]? = some (f car) := by
  induction store with
  | nil => simp [find_one] at hfind
  | cons a rest ih =>
    by_cases ha : a.id = cid
    · have hcar : car = a := by
        rw [find_one, if_pos ha] at hfind
        exact (Option.some.inj hfind).symm
      subst hcar
      refine ⟨0, by simp, ?_, ?_, ?_⟩
      · rw [updateFirst, if_pos ha]
        simp
      · intro j hj
        rcases j with _ | j
        · exact absurd rfl hj
        · rw [updateFirst, if_pos ha]
          simp
      · rw [updateFirst, if_pos ha]
        simp
    · have hfind2 : find_one rest cid = some car := by
        rw [find_one, if_neg ha] at hfind
        exact hfind
      obtain ⟨i, h1, h2, h3, h4⟩ := ih hfind2
      refine ⟨i + 1, by simpa using h1, ?_, ?_, ?_⟩
      · rw [updateFirst, if_neg ha]
        simpa using h2
      · intro j hj
        rcases j with _ | j
        · rw [updateFirst, if_neg ha]
          simp
        · rw [updateFirst, if_neg ha]
          have hji : j ≠ i := fun h => hj (by rw [h])
          simpa using h3 j hji
      · rw [updateFirst, if_neg ha]
        simpa using h4

/-- Claim C9: a successful vote (valid vote_type, car found) returns a
success response and rewrites only the found car's document, changing
none of id, make, model, year, image_url, created_at, and leaves every
other document in the store byte-for-byte unchanged. -/
theorem vote_updates_only_tally_fields (store : List Car)
    (car_id vote_type : String) (car : Car)
    (hvt : vote_type = "hot" ∨ vote_type = "not")
    (hfind : find_one store car_id = some car) :
    (∃ resp, (vote_for_car store car_id vote_type).2 = Except.ok resp) ∧
    ∃ i : ℕ, store[i]? = some car ∧
      (vote_for_car store car_id vote_type).1.length = store.length ∧
      (∀ j : ℕ, j ≠ i → (vote_for_car store car_id vote_type).1[j]? = store[j]?) ∧
      ∃ c2, (vote_for_car store car_id vote_type).1[i]? = some c2 ∧
        c2.id = car.id ∧ c2.make = car.make ∧ c2.model = car.model ∧
        c2.year = car.year ∧ c2.image_url = car.image_url ∧
        c2.created_at = car.created_at := by
  have hmem : vote_type ∈ (["hot", "not"] : List String) := by
    rcases hvt with h | h <;> simp [h]
  have hfst : (vote_for_car store car_id vote_type).1 =
      updateFirst store car_id
        (set_vote_fields (vote_aggregate car.hot_votes car.not_votes vote_type)) := by
    simp [vote_for_car, vote_body, hmem, hfind]
  constructor
  · cases hres : (vote_for_car store car_id vote_type).2 with
    | error e => simp [vote_for_car, vote_body, hmem, hfind] at hres
    | ok v => exact ⟨v, rfl⟩
  · obtain ⟨i, h1, h2, h3, h4⟩ := updateFirst_frame store car_id
      (set_vote_fields (vote_aggregate car.hot_votes car.not_votes vote_type))
      car hfind
    refine ⟨i, h1, ?_, ?_, ?_⟩
    · rw [hfst]
      exact h2
    · intro j hj
      rw [hfst]
      exact h3 j hj
    · refine ⟨set_vote_fields (vote_aggregate car.hot_votes car.not_votes vote_type) car,
        ?_, rfl, rfl, rfl, rfl, rfl, rfl⟩
      rw [hfst]
      exact h4

/-- A concrete stored car document used by witnesses. -/
def witnessCar : Car :=
  { id := "car-1", make := "Ferrari", model := "488 GTB", year := 2020
    image_url := "u", created_at := 0 }

/-- Witness for C9: a `"hot"` vote on the single stored car. -/
theorem vote_updates_only_tally_fields_witness :
    (∃ resp, (vote_for_car [witnessCar] "car-1" "hot").2 = Except.ok resp) ∧
    ∃ i : ℕ, [witnessCar][i]? = some witnessCar ∧
      (vote_for_car [witnessCar] "car-1" "hot").1.length = [witnessCar].length ∧
      (∀ j : ℕ, j ≠ i →
        (vote_for_car [witnessCar] "car-1" "hot").1[j]? = [witnessCar][j]?) ∧
      ∃ c2, (vote_for_car [witnessCar] "car-1" "hot").1[i]? = some c2 ∧
        c2.id = witnessCar.id ∧ c2.make = witnessCar.make ∧
        c2.model = witnessCar.model ∧ c2.year = witnessCar.year ∧
        c2.image_url = witnessCar.image_url ∧
        c2.created_at = witnessCar.created_at :=
  vote_updates_only_tally_fields [witnessCar] "car-1" "hot" witnessCar
    (Or.inl rfl) (by simp [find_one, witnessCar])

/-- The chat handler is the body with every exception turned into the
degraded `success=false` response. -/
lemma chat_with_agent_eq {Agent : Type} (conSearch conChat : Except String Agent)
    (exec : Agent → String → Except String AgentResult)
    (caps : Agent → List String)
    (st : AgentsState Agent) (req : ChatRequest) :
    chat_with_agent conSearch conChat exec caps st req =
      ((chat_body conSearch conChat exec caps st req).1,
        match (chat_body conSearch conChat exec caps st req).2 with
        | Except.ok resp => resp
        | Except.error m =>
            { success := false, response := "", agent_type := req.agent_type
              capabilities := [], error := some m }) := by
  rw [chat_with_agent]
  rcases chat_body conSearch conChat exec caps st req with ⟨st1, res⟩
  cases res <;> rfl

/-- The search handler is the body with every exception turned into the
degraded `success=false` response. -/
lemma search_and_summarize_eq {Agent : Type} (conSearch : Except String Agent)
    (exec : Agent → String → Bool → Except String AgentResult)
    (st : Option Agent) (req : SearchRequest) :
    search_and_summarize conSearch exec st req =
      ((search_body conSearch exec st req).1,
        match (search_body conSearch exec st req).2 with
        | Except.ok resp => resp
        | Except.error m =>
            { success := false, query := req.query, summary := ""
              sources_count := 0, error := some m }) := by
  rw [search_and_summarize]
  rcases search_body conSearch exec st req with ⟨st1, res⟩
  cases res <;> rfl

/-- Claim C7: every chat or search failure (agent construction or
execution raising) is caught inside the handler and returned as a
`success=false` response carrying the failure message, never propagated
as an HTTP fault (the handlers return plain responses on every input);
car endpoints by contrast surface internal store failures as
HTTP 500. -/
theorem agent_failures_contained {Agent : Type}
    (conSearch conChat : Except String Agent)
    (exec : Agent → String → Except String AgentResult)
    (exec2 : Agent → String → Bool → Except String AgentResult)
    (caps : Agent → List String)
    (st : AgentsState Agent) (sta : Option Agent)
    (req : ChatRequest) (sreq : SearchRequest) (m m2 : String)
    (store : List Car) (k : ℕ) :
    ((chat_body conSearch conChat exec caps st req).2 = Except.error m →
      (chat_with_agent conSearch conChat exec caps st req).2 =
        { success := false, response := "", agent_type := req.agent_type
          capabilities := [], error := some m }) ∧
    ((search_body conSearch exec2 sta sreq).2 = Except.error m2 →
      (search_and_summarize conSearch exec2 sta sreq).2 =
        { success := false, query := sreq.query, summary := ""
          sources_count := 0, error := some m2 }) ∧
    get_random_car true store k =
      Except.error (Exn.http 500 "Failed to get random car") := by
  refine ⟨?_, ?_, rfl⟩
  · intro h
    rw [chat_with_agent_eq, h]
  · intro h
    rw [search_and_summarize_eq, h]

/-- Witness for C7: a chat request on a fresh state whose chat-agent
constructor raises, and a search request whose search-agent constructor
raises, in the one-element ℕ instantiation of the opaque agent type. -/
theorem agent_failures_contained_witness :
    (chat_with_agent (Except.error "boom") (Except.error "boom")
      (fun _ _ => Except.ok { success := true, content := "ran" })
      (fun _ => ["conversation"])
      ({ search_agent := none, chat_agent := none } : AgentsState ℕ)
      { message := "hi" }).2 =
      { success := false, response := "", agent_type := "chat"
        capabilities := [], error := some "boom" } ∧
    (search_and_summarize (Except.error "boom")
      (fun _ _ _ => Except.ok { success := true, content := "ran" })
      (none : Option ℕ) { query := "cars" }).2 =
      { success := false, query := "cars", summary := ""
        sources_count := 0, error := some "boom" } ∧
    get_random_car true [] 0 =
      Except.error (Exn.http 500 "Failed to get random car") := by
  refine ⟨?_, ?_, ?_⟩
  · exact (agent_failures_contained (Except.error "boom") (Except.error "boom")
      (fun _ _ => Except.ok { success := true, content := "ran" })
      (fun _ _ _ => Except.ok { success := true, content := "ran" })
      (fun _ => ["conversation"])
      ({ search_agent := none, chat_agent := none } : AgentsState ℕ) none
      { message := "hi" } { query := "cars" } "boom" "boom" [] 0).1 rfl
  · exact (agent_failures_contained (Except.error "boom") (Except.error "boom")
      (fun _ _ => Except.ok { success := true, content := "ran" })
      (fun _ _ _ => Except.ok { success := true, content := "ran" })
      (fun _ => ["conversation"])
      ({ search_agent := none, chat_agent := none } : AgentsState ℕ) none
      { message := "hi" } { query := "cars" } "boom" "boom" [] 0).2.1 rfl
  · exact (agent_failures_contained (Except.error "boom") (Except.error "boom")
      (fun _ _ => Except.ok { success := true, content := "ran" })
      (fun _ _ _ => Except.ok { success := true, content := "ran" })
      (fun _ => ["conversation"])
      ({ search_agent := none, chat_agent := none } : AgentsState ℕ) none
      { message := "hi" } { query := "cars" } "boom" "boom" [] 0).2.2

/-- Counterexample to claim C8 as stated: on a fresh process state
(chat instance not yet constructed) a request with the unrecognized
agent_type "bogus" skips the lazy-init block, selects the still-None
chat slot, and returns the caught-500 failure response; the message is
never executed even though the supplied execute oracle would have
returned a success response. -/
theorem chat_unknown_type_not_executed :
    (chat_with_agent (Except.ok 0) (Except.ok 1)
      (fun _ _ => Except.ok { success := true, content := "ran" })
      (fun _ => ["conversation"])
      ({ search_agent := none, chat_agent := none } : AgentsState ℕ)
      { message := "hi", agent_type := "bogus" }).2 =
      { success := false, response := "", agent_type := "bogus"
        capabilities := [], error := some "500: Failed to initialize agent" } := by
  rfl

/-- Claim C8 as amended: a chat request whose agent_type is neither
"search" nor "chat" performs no lazy construction and falls back to the
chat-agent slot: if a chat instance already exists the message is
executed against it (and the response shaped from the execution result),
while if the chat slot is still None the handler returns the
success=false response "500: Failed to initialize agent" without
executing anything. -/
theorem chat_unknown_type_falls_back_to_chat {Agent : Type}
    (conSearch conChat : Except String Agent)
    (exec : Agent → String → Except String AgentResult)
    (caps : Agent → List String)
    (st : AgentsState Agent) (req : ChatRequest)
    (h1 : req.agent_type ≠ "search") (h2 : req.agent_type ≠ "chat") :
    (∀ a, st.chat_agent = some a →
      chat_with_agent conSearch conChat exec caps st req =
        (st, match exec a req.message with
          | Except.ok r =>
              { success := r.success, response := r.content
                agent_type := req.agent_type, capabilities := caps a
                metadata := r.metadata, error := r.error }
          | Except.error m =>
              { success := false, response := "", agent_type := req.agent_type
                capabilities := [], error := some m })) ∧
    (st.chat_agent = none →
      chat_with_agent conSearch conChat exec caps st req =
        (st, { success := false, response := "", agent_type := req.agent_type
               capabilities := [], error := some "500: Failed to initialize agent" })) := by
  have hc1 : ¬(req.agent_type = "search" ∧ st.search_agent.isNone = true) :=
    fun h => h1 h.1
  have hc2 : ¬(req.agent_type = "chat" ∧ st.chat_agent.isNone = true) :=
    fun h => h2 h.1
  have hbody : chat_body conSearch conChat exec caps st req =
      (st, chat_rest exec caps st req) := by
    rw [chat_body.eq_def, if_neg hc1, if_neg hc2]
  constructor
  · intro a ha
    rw [chat_with_agent_eq, hbody]
    cases hex : exec a req.message with
    | ok r => simp [chat_rest, h1, ha, hex]
    | error m => simp [chat_rest, h1, ha, hex]
  · intro ha
    rw [chat_with_agent_eq, hbody]
    simp [chat_rest, h1, ha]

/-- Witness for the amended C8: agent_type "bogus" with an existing chat
instance executes against it; with a fresh state it fails with the
caught 500 message. -/
theorem chat_unknown_type_falls_back_to_chat_witness :
    chat_with_agent (Except.ok 0) (Except.ok 1)
      (fun _ _ => Except.ok { success := true, content := "ran" })
      (fun _ => ["conversation"])
      ({ search_agent := none, chat_agent := some 7 } : AgentsState ℕ)
      { message := "hi", agent_type := "bogus" } =
      ({ search_agent := none, chat_agent := some 7 },
        { success := true, response := "ran", agent_type := "bogus"
          capabilities := ["conversation"], metadata := [], error := none }) :=
  ((chat_unknown_type_falls_back_to_chat (Except.ok 0) (Except.ok 1)
      (fun _ _ => Except.ok { success := true, content := "ran" })
      (fun _ => ["conversation"])
      ({ search_agent := none, chat_agent := some 7 } : AgentsState ℕ)
      { message := "hi", agent_type := "bogus" }
      (by decide) (by decide)).1 7 rfl).trans rfl

/-- Every successful result of the search body echoes the request query,
and its failure-shaped results carry an empty summary and a zero source
count. -/
lemma search_body_ok_shape {Agent : Type} (conSearch : Except String Agent)
    (exec : Agent → String → Bool → Except String AgentResult)
    (st : Option Agent) (req : SearchRequest) (resp : SearchResponse)
    (h : (search_body conSearch exec st req).2 = Except.ok resp) :
    resp.query = req.query ∧
      (resp.success = false → resp.summary = "" ∧ resp.sources_count = 0) := by
  have hrest : ∀ a : Agent, search_rest exec a req = Except.ok resp →
      resp.query = req.query ∧
        (resp.success = false → resp.summary = "" ∧ resp.sources_count = 0) := by
    intro a ha
    simp only [search_rest] at ha
    cases hex : exec a (search_prompt req.query) true with
    | error m => simp [hex] at ha
    | ok r =>
        simp only [hex] at ha
        by_cases hs : r.success = true
        · rw [if_pos hs] at ha
          cases Except.ok.inj ha
          exact ⟨rfl, by intro hf; simp at hf⟩
        · rw [if_neg hs] at ha
          cases Except.ok.inj ha
          exact ⟨rfl, fun _ => ⟨rfl, rfl⟩⟩
  rcases st with _ | a
  · cases conSearch with
    | error m => simp [search_body] at h
    | ok a =>
        simp only [search_body] at h
        exact hrest a h
  · simp only [search_body] at h
    exact hrest a h

/-- Claim C10: every search response echoes the request's query verbatim
in its `query` field, in the success and in both failure branches; and
every failure response (unsuccessful agent result or caught exception,
i.e. whenever `success = false`) has an empty `summary` and
`sources_count = 0`. -/
theorem search_response_echoes_query {Agent : Type}
    (conSearch : Except String Agent)
    (exec : Agent → String → Bool → Except String AgentResult)
    (st : Option Agent) (req : SearchRequest) :
    (search_and_summarize conSearch exec st req).2.query = req.query ∧
    ((search_and_summarize conSearch exec st req).2.success = false →
      (search_and_summarize conSearch exec st req).2.summary = "" ∧
      (search_and_summarize conSearch exec st req).2.sources_count = 0) := by
  rw [search_and_summarize_eq]
  cases hsb : (search_body conSearch exec st req).2 with
  | error m => simp
  | ok resp =>
      simpa using search_body_ok_shape conSearch exec st req resp hsb

/-- Witness for C10: a search request against a ready agent whose
execution reports failure. -/
theorem search_response_echoes_query_witness :
    (search_and_summarize (Except.ok 0)
      (fun _ _ _ => Except.ok
        { success := false, content := "x", error := some "no tools" })
      (some 0 : Option ℕ) { query := "cars" }).2.query = "cars" ∧
    ((search_and_summarize (Except.ok 0)
      (fun _ _ _ => Except.ok
        { success := false, content := "x", error := some "no tools" })
      (some 0 : Option ℕ) { query := "cars" }).2.success = false →
      (search_and_summarize (Except.ok 0)
        (fun _ _ _ => Except.ok
          { success := false, content := "x", error := some "no tools" })
        (some 0 : Option ℕ) { query := "cars" }).2.summary = "" ∧
      (search_and_summarize (Except.ok 0)
        (fun _ _ _ => Except.ok
          { success := false, content := "x", error := some "no tools" })
        (some 0 : Option ℕ) { query := "cars" }).2.sources_count = 0) :=
  search_response_echoes_query (Except.ok 0)
    (fun _ _ _ => Except.ok
      { success := false, content := "x", error := some "no tools" })
    (some 0) { query := "cars" }
